import Mathlib

set_option maxRecDepth 8000

/-
Verification of the node-crawler synchronization and eviction daemons
(cmd/crawler/api.go): transferNewNodes, newNodeDaemon and dropDaemon.

The two SQLite stores are embedded as lists of records. The outcome of
each fallible external operation in one synchronization cycle (opening
the transient-store transaction, reading the pending batch, inserting
into the serving store, committing) is an explicit boolean in a CycleEnv
record, so a single cycle is a pure function of the environment and the
two stores. transferNewNodes additionally returns the trace of store
operations it performed, in program order, so that claims about which
operations happen on which path are statable.
-/

namespace NodeCrawler

/-- One crawled peer record: the unique node identifier and the last-seen
timestamp (the only fields the synchronization claims depend on). -/
structure Node where
  id : Nat
  lastSeen : Nat
deriving DecidableEq

/-- The two stores: the write-optimized transient store (crawler DB) holding
the pending batch, and the read-optimized serving store (API node DB). -/
structure Stores where
  transient : List Node
  serving : List Node
deriving DecidableEq

/-- Outcome of each fallible external operation during one synchronization
cycle of transferNewNodes. -/
structure CycleEnv where
  beginOk : Bool
  readOk : Bool
  insertOk : Bool
  commitOk : Bool
deriving DecidableEq

/-- Result of transferNewNodes: nil, or a wrapped error message. -/
inductive TRes where
  | ok : TRes
  | err (msg : String) : TRes
deriving DecidableEq

/-- Store operations, recorded in program order. A rollbackTx event is
recorded on the paths where the deferred Rollback actually reverts the
transaction; after Commit has been attempted the deferred Rollback is a
no-op in database/sql and is not recorded. -/
inductive Ev where
  | beginTx (ok : Bool) : Ev
  | readAndDelete (nodes : List Node) (ok : Bool) : Ev
  | insertServing (nodes : List Node) (ok : Bool) : Ev
  | commitTx (ok : Bool) : Ev
  | rollbackTx : Ev
deriving DecidableEq

/-- Modelled from the spec: crawlerdb.ReadAndDeleteUnseenNodes (package
pkg/crawlerdb, not under src/) extracts, within the open transaction, all
pending records of the transient store: it returns the whole pending batch
together with the post-extraction content of the store as seen inside the
transaction (empty). -/
def readAndDeleteUnseenNodes (transient : List Node) : List Node × List Node :=
  (transient, [])

/-- Modelled from the spec: the serving-store upsert is keyed by the unique
node identifier; re-upserting an existing identifier replaces that record. -/
def upsert (serving : List Node) (n : Node) : List Node :=
  match serving with
  | [] => [n]
  | m :: rest => if m.id = n.id then n :: rest else m :: upsert rest n

/-- Modelled from the spec: apidb.InsertCrawledNodes (package pkg/apidb, not
under src/) upserts every record of the batch into the serving store. -/
def insertCrawledNodes (serving : List Node) : List Node → List Node
  | [] => serving
  | n :: rest => insertCrawledNodes (upsert serving n) rest

/-- Result of one transferNewNodes cycle: returned error value, resulting
stores, and the trace of store operations performed. -/
structure TransferOut where
  res : TRes
  stores : Stores
  trace : List Ev
deriving DecidableEq

/-- One synchronization cycle, embedding transferNewNodes of
cmd/crawler/api.go. The transient-store transaction is opened; on any error
the function returns with the deferred Rollback leaving the transient store
unchanged. The pending batch is extracted inside the transaction; a
non-empty batch is inserted into the serving store (a separate database,
outside the transaction); the transaction is committed last, and the error
value of Commit is discarded, so a failed Commit still returns nil while
the extraction is reverted. -/
def transferNewNodes (env : CycleEnv) (s : Stores) : TransferOut :=
  if env.beginOk = false then
    { res := TRes.err "error starting transaction to read nodes"
      stores := s
      trace := [Ev.beginTx false] }
  else if env.readOk = false then
    { res := TRes.err "error reading nodes"
      stores := s
      trace := [Ev.beginTx true, Ev.readAndDelete [] false, Ev.rollbackTx] }
  else
    let extracted := readAndDeleteUnseenNodes s.transient
    let nodes := extracted.1
    if nodes.length > 0 then
      if env.insertOk = false then
        { res := TRes.err "error inserting nodes"
          stores := s
          trace := [Ev.beginTx true, Ev.readAndDelete nodes true,
                    Ev.insertServing nodes false, Ev.rollbackTx] }
      else if env.commitOk then
        { res := TRes.ok
          stores := { transient := extracted.2
                      serving := insertCrawledNodes s.serving nodes }
          trace := [Ev.beginTx true, Ev.readAndDelete nodes true,
                    Ev.insertServing nodes true, Ev.commitTx true] }
      else
        { res := TRes.ok
          stores := { transient := s.transient
                      serving := insertCrawledNodes s.serving nodes }
          trace := [Ev.beginTx true, Ev.readAndDelete nodes true,
                    Ev.insertServing nodes true, Ev.commitTx false] }
    else
      if env.commitOk then
        { res := TRes.ok
          stores := { transient := extracted.2, serving := s.serving }
          trace := [Ev.beginTx true, Ev.readAndDelete nodes true,
                    Ev.commitTx true] }
      else
        { res := TRes.ok
          stores := s
          trace := [Ev.beginTx true, Ev.readAndDelete nodes true,
                    Ev.commitTx false] }

/-- Node identifiers present in a store. -/
def ids (l : List Node) : List Nat :=
  l.map Node.id

theorem mem_ids_upsert_self (serving : List Node) (n : Node) :
    n.id ∈ ids (upsert serving n) := by
  induction serving with
  | nil => simp [upsert, ids]
  | cons m rest ih =>
    by_cases h : m.id = n.id
    · simp [upsert, h, ids]
    · simp only [upsert, if_neg h, ids, List.map_cons, List.mem_cons]
      exact Or.inr ih

theorem mem_ids_upsert_mono (serving : List Node) (n : Node) (a : Nat)
    (h : a ∈ ids serving) : a ∈ ids (upsert serving n) := by
  induction serving with
  | nil => simp [ids] at h
  | cons m rest ih =>
    simp only [ids, List.map_cons, List.mem_cons] at h
    by_cases hm : m.id = n.id
    · simp only [upsert, if_pos hm, ids, List.map_cons, List.mem_cons]
      rcases h with h | h
      · exact Or.inl (h.trans hm)
      · exact Or.inr h
    · simp only [upsert, if_neg hm, ids, List.map_cons, List.mem_cons]
      rcases h with h | h
      · exact Or.inl h
      · exact Or.inr (ih h)

theorem mem_ids_insertCrawledNodes_mono (nodes : List Node) :
    ∀ (serving : List Node) (a : Nat), a ∈ ids serving →
      a ∈ ids (insertCrawledNodes serving nodes) := by
  induction nodes with
  | nil => intro serving a h; simpa [insertCrawledNodes] using h
  | cons n rest ih =>
    intro serving a h
    exact ih (upsert serving n) a (mem_ids_upsert_mono serving n a h)

theorem mem_ids_insertCrawledNodes (nodes : List Node) :
    ∀ (serving : List Node) (n : Node), n ∈ nodes →
      n.id ∈ ids (insertCrawledNodes serving nodes) := by
  induction nodes with
  | nil => intro serving n h; simp at h
  | cons m rest ih =>
    intro serving n h
    rcases List.mem_cons.mp h with h | h
    · subst h
      exact mem_ids_insertCrawledNodes_mono rest (upsert serving n) n.id
        (mem_ids_upsert_self serving n)
    · exact ih (upsert serving m) n h

/-- One minute in nanoseconds (time.Minute), the backoff base interval. -/
def minuteNs : Int := 60000000000

/-- One second in nanoseconds (time.Second), the idle cadence. -/
def secondNs : Int := 1000000000

/-- Reduction of an unbounded integer to a 64-bit two of-complement value,
the semantics of the Go int64 multiplication in retryTimeout *= 2. -/
def wrap64 (x : Int) : Int :=
  (x + 9223372036854775808) % 18446744073709551616 - 9223372036854775808

/-- State carried across iterations of the newNodeDaemon loop: the current
backoff timer and the two stores. -/
structure DaemonState where
  retryTimeout : Int
  stores : Stores
deriving DecidableEq

/-- Initial value of retryTimeout in newNodeDaemon (time.Minute). -/
def newNodeDaemonInitialTimeout : Int := minuteNs

/-- One iteration of the newNodeDaemon loop: run transferNewNodes; on error,
sleep for the current retryTimeout and double it (int64 arithmetic); on
success, reset retryTimeout to one minute and sleep one second. Returns the
next daemon state and the duration slept this iteration. -/
def newNodeStep (env : CycleEnv) (st : DaemonState) : DaemonState × Int :=
  let out := transferNewNodes env st.stores
  match out.res with
  | TRes.err _ =>
    ({ retryTimeout := wrap64 (2 * st.retryTimeout), stores := out.stores },
     st.retryTimeout)
  | TRes.ok =>
    ({ retryTimeout := minuteNs, stores := out.stores }, secondNs)

/-- Environment of a cycle whose transient-store transaction cannot be
opened (crawlerDB.Begin fails), every other operation would succeed. -/
def envBeginFail : CycleEnv :=
  { beginOk := false, readOk := true, insertOk := true, commitOk := true }

/-- Daemon state at startup: base backoff timer, both stores empty. -/
def initDaemonState : DaemonState :=
  { retryTimeout := newNodeDaemonInitialTimeout
    stores := { transient := [], serving := [] } }

/-- Daemon state after k consecutive failing cycles from startup. -/
def runFailures : Nat → DaemonState
  | 0 => initDaemonState
  | k + 1 => (newNodeStep envBeginFail (runFailures k)).1

/-- The backoff interval used on the k-th consecutive failure: one minute
doubled k times in int64 arithmetic. -/
def backoffAfter : Nat → Int
  | 0 => minuteNs
  | k + 1 => wrap64 (2 * backoffAfter k)

/-- The dropDaemon cadence: 10 minutes in nanoseconds
(time.NewTicker(10 * time.Minute)). -/
def dropInterval : Nat := 600000000000

/-- Time of the k-th ticker fire, counted from daemon start: time.NewTicker
delivers its first tick only after one full period has elapsed. -/
def tickTime (k : Nat) : Nat := (k + 1) * dropInterval

/-- The dropDaemon loop, run over a finite prefix of ticker fires whose
apidb.DropOldNodes outcomes are given by the boolean list: on each tick one
bulk delete is issued; if it fails the daemon panics, ending the run. The
first component lists the times at which a delete was issued, the second
reports whether the daemon panicked. -/
def dropDaemonRun : Nat → List Bool → List Nat × Bool
  | _, [] => ([], false)
  | k, outcome :: rest =>
    if outcome then
      let r := dropDaemonRun (k + 1) rest
      (tickTime k :: r.1, r.2)
    else
      ([tickTime k], true)

theorem dropDaemonRun_success (outcomes : List Bool) :
    ∀ (k : Nat), (∀ b ∈ outcomes, b = true) →
      dropDaemonRun k outcomes =
        ((List.range' k outcomes.length).map tickTime, false) := by
  induction outcomes with
  | nil => intro k _; simp [dropDaemonRun]
  | cons b rest ih =>
    intro k h
    have hb : b = true := h b (List.mem_cons_self b rest)
    have hrest : ∀ x ∈ rest, x = true := fun x hx => h x (List.mem_cons_of_mem b hx)
    subst hb
    simp [dropDaemonRun, ih (k + 1) hrest, List.range'_succ]

theorem dropDaemonRun_panics (i : Nat) :
    ∀ (k : Nat) (rest : List Bool),
      dropDaemonRun k (List.replicate i true ++ false :: rest) =
        ((List.range' k (i + 1)).map tickTime, true) := by
  induction i with
  | zero => intro k rest; simp [dropDaemonRun, List.range'_succ]
  | succ i ih =>
    intro k rest
    simp [List.replicate_succ, dropDaemonRun, ih (k + 1) rest, List.range'_succ]

theorem dropInterval_le_tickTime (k : Nat) : dropInterval ≤ tickTime k := by
  have h : 1 * dropInterval ≤ (k + 1) * dropInterval :=
    Nat.mul_le_mul_right _ (by omega)
  simpa [tickTime] using h

theorem dropDaemonRun_times_ge (outcomes : List Bool) :
    ∀ (k : Nat) (t : Nat), t ∈ (dropDaemonRun k outcomes).1 →
      dropInterval ≤ t := by
  induction outcomes with
  | nil => intro k t ht; simp [dropDaemonRun] at ht
  | cons b rest ih =>
    intro k t ht
    cases b with
    | true =>
      simp only [dropDaemonRun, if_true, List.mem_cons] at ht
      rcases ht with ht | ht
      · exact ht ▸ dropInterval_le_tickTime k
      · exact ih (k + 1) t ht
    | false =>
      simp only [dropDaemonRun, Bool.false_eq_true, if_false,
        List.mem_singleton] at ht
      exact ht ▸ dropInterval_le_tickTime k

theorem transfer_transient_dichotomy (env : CycleEnv) (s : Stores) :
    (transferNewNodes env s).stores.transient = s.transient ∨
      ((transferNewNodes env s).stores.transient = [] ∧
        ∀ n ∈ s.transient, n.id ∈ ids (transferNewNodes env s).stores.serving) := by
  simp only [transferNewNodes, readAndDeleteUnseenNodes]
  split
  · exact Or.inl rfl
  · split
    · exact Or.inl rfl
    · split
      · split
        · exact Or.inl rfl
        · split
          · exact Or.inr ⟨rfl,
              fun n hn => mem_ids_insertCrawledNodes s.transient s.serving n hn⟩
          · exact Or.inl rfl
      · next h =>
        have he : s.transient = [] := by
          cases hs : s.transient with
          | nil => rfl
          | cons a l => rw [hs] at h; simp at h
        split
        · exact Or.inl (by simp [he])
        · exact Or.inl rfl

theorem transfer_commit_implies_insert (env : CycleEnv) (s : Stores) :
    Ev.commitTx true ∈ (transferNewNodes env s).trace → s.transient ≠ [] →
      Ev.insertServing s.transient true ∈ (transferNewNodes env s).trace := by
  simp only [transferNewNodes, readAndDeleteUnseenNodes]
  split
  · intro h1 _; simp at h1
  · split
    · intro h1 _; simp at h1
    · split
      · split
        · intro h1 _; simp at h1
        · split
          · intro _ _; simp
          · intro h1 _; simp at h1
      · next h =>
        have he : s.transient = [] := by
          cases hs : s.transient with
          | nil => rfl
          | cons a l => rw [hs] at h; simp at h
        split
        · intro _ h2; exact absurd he h2
        · intro _ h2; exact absurd he h2

theorem transfer_error_frame (env : CycleEnv) (s : Stores) (msg : String)
    (h : (transferNewNodes env s).res = TRes.err msg) :
    (transferNewNodes env s).stores = s := by
  revert h
  simp only [transferNewNodes, readAndDeleteUnseenNodes]
  split
  · intro _; rfl
  · split
    · intro _; rfl
    · split
      · split
        · intro _; rfl
        · split
          · intro h; simp at h
          · intro h; simp at h
      · split
        · intro h; simp at h
        · intro h; simp at h

/-- Claim C1: in every synchronization cycle, the records extracted from the
transient store are either all written to the serving store (and the batch
is cleared) or none of them are removed; the transaction is committed only
on a path where the serving-store insert of the non-empty batch already
succeeded, and every error path leaves both stores exactly as they were. -/
theorem transfer_all_or_nothing (env : CycleEnv) (s : Stores) :
    ((transferNewNodes env s).stores.transient = s.transient ∨
      ((transferNewNodes env s).stores.transient = [] ∧
        ∀ n ∈ s.transient, n.id ∈ ids (transferNewNodes env s).stores.serving)) ∧
    (Ev.commitTx true ∈ (transferNewNodes env s).trace → s.transient ≠ [] →
      Ev.insertServing s.transient true ∈ (transferNewNodes env s).trace) ∧
    (∀ msg, (transferNewNodes env s).res = TRes.err msg →
      (transferNewNodes env s).stores = s) :=
  ⟨transfer_transient_dichotomy env s, transfer_commit_implies_insert env s,
   fun msg h => transfer_error_frame env s msg h⟩

/-- Witness for C1 at a concrete failing cycle: with the transaction failing
to open, the stores are unchanged. -/
theorem transfer_all_or_nothing_witness :
    (transferNewNodes envBeginFail ⟨[], []⟩).stores = ⟨[], []⟩ :=
  (transfer_all_or_nothing envBeginFail ⟨[], []⟩).2.2
    "error starting transaction to read nodes" rfl

/-- Claim C2: when the serving-store insert fails on a non-empty batch,
transferNewNodes returns the wrapped insert error, the transient-store
transaction is rolled back and never committed, and both stores are left
exactly as before the cycle: no record is lost and none is duplicated. -/
theorem insert_error_rolls_back (env : CycleEnv) (s : Stores)
    (hb : env.beginOk = true) (hr : env.readOk = true) (hi : env.insertOk = false)
    (hne : s.transient ≠ []) :
    (transferNewNodes env s).res = TRes.err "error inserting nodes" ∧
    (transferNewNodes env s).stores = s ∧
    Ev.rollbackTx ∈ (transferNewNodes env s).trace ∧
    (∀ b, Ev.commitTx b ∉ (transferNewNodes env s).trace) := by
  obtain ⟨tr, sv⟩ := s
  cases tr with
  | nil => exact absurd rfl hne
  | cons n t =>
    refine ⟨?_, ?_, ?_, ?_⟩ <;>
      simp [transferNewNodes, readAndDeleteUnseenNodes, hb, hr, hi]

/-- Witness for C2: a one-record batch whose insert fails is fully retained. -/
theorem insert_error_rolls_back_witness :
    (transferNewNodes ⟨true, true, false, true⟩ ⟨[⟨1, 5⟩], []⟩).res =
      TRes.err "error inserting nodes" ∧
    (transferNewNodes ⟨true, true, false, true⟩ ⟨[⟨1, 5⟩], []⟩).stores =
      ⟨[⟨1, 5⟩], []⟩ :=
  ⟨(insert_error_rolls_back ⟨true, true, false, true⟩ ⟨[⟨1, 5⟩], []⟩
      rfl rfl rfl (by simp)).1,
   (insert_error_rolls_back ⟨true, true, false, true⟩ ⟨[⟨1, 5⟩], []⟩
      rfl rfl rfl (by simp)).2.1⟩

/-- Claim C3: the retry timer of newNodeDaemon starts at the one-minute base
interval; a cycle on which transferNewNodes returns an error sleeps for the
current timer value and then doubles it (as the int64 multiplication does),
and any successful cycle resets the timer to the base interval. -/
theorem backoff_doubles_and_resets (env : CycleEnv) (st : DaemonState) :
    newNodeDaemonInitialTimeout = minuteNs ∧
    ((∃ msg, (transferNewNodes env st.stores).res = TRes.err msg) →
      (newNodeStep env st).2 = st.retryTimeout ∧
      (newNodeStep env st).1.retryTimeout = wrap64 (2 * st.retryTimeout)) ∧
    ((transferNewNodes env st.stores).res = TRes.ok →
      (newNodeStep env st).1.retryTimeout = minuteNs) := by
  refine ⟨rfl, ?_, ?_⟩
  · rintro ⟨msg, h⟩
    simp [newNodeStep, h]
  · intro h
    simp [newNodeStep, h]

/-- Witness for C3 at a concrete failing cycle from the initial state. -/
theorem backoff_doubles_and_resets_witness :
    (newNodeStep envBeginFail initDaemonState).2 = initDaemonState.retryTimeout ∧
    (newNodeStep envBeginFail initDaemonState).1.retryTimeout =
      wrap64 (2 * initDaemonState.retryTimeout) :=
  (backoff_doubles_and_resets envBeginFail initDaemonState).2.1
    ⟨"error starting transaction to read nodes", rfl⟩

/-- Counterexample for claim C4: the backoff interval does not strictly increase for
arbitrarily long runs of consecutive failures. After 28 consecutive failing
cycles the int64 doubling has overflowed: the interval is strictly smaller
than after 27 failures, and is negative. -/
theorem backoff_overflow_counterexample :
    (runFailures 28).retryTimeout < (runFailures 27).retryTimeout ∧
    (runFailures 28).retryTimeout < 0 := by
  decide

/-- Claim C4 as amended: the retry timer after k consecutive failing cycles is the
base interval doubled k times in int64 arithmetic, and the backoff interval
strictly increases from its prior value on each of the first 27 consecutive
doublings, i.e. for as long as the doubling has not overflowed int64. -/
theorem backoff_strictly_increases_before_overflow :
    (∀ k : Nat, (runFailures k).retryTimeout = backoffAfter k) ∧
    (∀ k : Nat, k < 27 → backoffAfter k < backoffAfter (k + 1)) := by
  constructor
  · intro k
    induction k with
    | zero => rfl
    | succ k ih =>
      simp [runFailures, newNodeStep, transferNewNodes, envBeginFail,
        backoffAfter, ih]
  · decide

/-- Witness for the amended C4: after 0 failures the timer is the base
interval, and the first doubling strictly increases it. -/
theorem backoff_strictly_increases_before_overflow_witness :
    (runFailures 0).retryTimeout = backoffAfter 0 ∧
    backoffAfter 0 < backoffAfter 1 :=
  ⟨backoff_strictly_increases_before_overflow.1 0,
   backoff_strictly_increases_before_overflow.2 0 (by decide)⟩

/-- Claim C5: if the transient-store transaction cannot be opened, the cycle
aborts immediately with the wrapped Begin error, before any read event and
before touching either store, and the daemon recovers locally: the next
iteration sleeps the current backoff value, doubles the timer and carries
the unchanged stores forward, propagating nothing. -/
theorem begin_error_aborts_immediately (env : CycleEnv) (s : Stores) (t : Int)
    (hb : env.beginOk = false) :
    (transferNewNodes env s).res =
      TRes.err "error starting transaction to read nodes" ∧
    (transferNewNodes env s).stores = s ∧
    (transferNewNodes env s).trace = [Ev.beginTx false] ∧
    (newNodeStep env ⟨t, s⟩).2 = t ∧
    (newNodeStep env ⟨t, s⟩).1.retryTimeout = wrap64 (2 * t) ∧
    (newNodeStep env ⟨t, s⟩).1.stores = s := by
  refine ⟨?_, ?_, ?_, ?_, ?_, ?_⟩ <;> simp [transferNewNodes, newNodeStep, hb]

/-- Witness for C5 at a concrete state. -/
theorem begin_error_aborts_immediately_witness :
    (transferNewNodes envBeginFail ⟨[⟨7, 3⟩], []⟩).res =
      TRes.err "error starting transaction to read nodes" ∧
    (transferNewNodes envBeginFail ⟨[⟨7, 3⟩], []⟩).stores = ⟨[⟨7, 3⟩], []⟩ :=
  ⟨(begin_error_aborts_immediately envBeginFail ⟨[⟨7, 3⟩], []⟩ minuteNs rfl).1,
   (begin_error_aborts_immediately envBeginFail ⟨[⟨7, 3⟩], []⟩ minuteNs rfl).2.1⟩

/-- Claim C6: when the bulk age-based delete of an eviction cycle fails, the
daemon panics: the run ends after exactly the deletes issued so far, and no
further tick is processed, whatever outcomes would have followed. -/
theorem drop_error_panics (i : Nat) (rest : List Bool) :
    dropDaemonRun 0 (List.replicate i true ++ false :: rest) =
      ((List.range' 0 (i + 1)).map tickTime, true) :=
  dropDaemonRun_panics i 0 rest

/-- Claim C7: a cycle on which transferNewNodes succeeds (in particular one whose
batch was empty) is followed by a fixed one-second sleep, and the backoff
timer is at the base one-minute value for the next cycle. -/
theorem success_sleeps_one_second (env : CycleEnv) (st : DaemonState)
    (h : (transferNewNodes env st.stores).res = TRes.ok) :
    (newNodeStep env st).2 = secondNs ∧
    (newNodeStep env st).1.retryTimeout = minuteNs := by
  constructor <;> simp [newNodeStep, h]

/-- Witness for C7: a successful cycle over an empty batch from the initial
state sleeps one second with the timer at the base interval. -/
theorem success_sleeps_one_second_witness :
    (newNodeStep ⟨true, true, true, true⟩ initDaemonState).2 = secondNs ∧
    (newNodeStep ⟨true, true, true, true⟩ initDaemonState).1.retryTimeout =
      minuteNs :=
  success_sleeps_one_second ⟨true, true, true, true⟩ initDaemonState rfl

/-- Claim C8: when the serving-store insert of a non-empty batch succeeds but the
final Commit fails, transferNewNodes still returns nil (the Commit error is
discarded): the cycle counts as a success, so no backoff is applied and the
timer is reset, every record of the batch has been written to the serving
store, and the whole batch is still pending in the transient store, to be
delivered again by a later cycle. -/
theorem commit_error_discarded (env : CycleEnv) (s : Stores) (t : Int)
    (hb : env.beginOk = true) (hr : env.readOk = true) (hi : env.insertOk = true)
    (hc : env.commitOk = false) (hne : s.transient ≠ []) :
    (transferNewNodes env s).res = TRes.ok ∧
    (transferNewNodes env s).stores.transient = s.transient ∧
    (∀ n ∈ s.transient, n.id ∈ ids (transferNewNodes env s).stores.serving) ∧
    (newNodeStep env ⟨t, s⟩).1.retryTimeout = minuteNs ∧
    (newNodeStep env ⟨t, s⟩).2 = secondNs := by
  obtain ⟨tr, sv⟩ := s
  cases tr with
  | nil => exact absurd rfl hne
  | cons n t' =>
    have hserv :
        (transferNewNodes env ⟨n :: t', sv⟩).stores.serving =
          insertCrawledNodes sv (n :: t') := by
      simp [transferNewNodes, readAndDeleteUnseenNodes, hb, hr, hi, hc]
    refine ⟨?_, ?_, ?_, ?_, ?_⟩
    · simp [transferNewNodes, readAndDeleteUnseenNodes, hb, hr, hi, hc]
    · simp [transferNewNodes, readAndDeleteUnseenNodes, hb, hr, hi, hc]
    · rw [hserv]
      exact fun n' hn' => mem_ids_insertCrawledNodes (n :: t') sv n' hn'
    · simp [newNodeStep, transferNewNodes, readAndDeleteUnseenNodes,
        hb, hr, hi, hc]
    · simp [newNodeStep, transferNewNodes, readAndDeleteUnseenNodes,
        hb, hr, hi, hc]

/-- Witness for C8: one record, failed commit, nil result, record both
served and still pending. -/
theorem commit_error_discarded_witness :
    (transferNewNodes ⟨true, true, true, false⟩ ⟨[⟨2, 9⟩], []⟩).res = TRes.ok ∧
    (transferNewNodes ⟨true, true, true, false⟩ ⟨[⟨2, 9⟩], []⟩).stores.transient =
      [⟨2, 9⟩] :=
  ⟨(commit_error_discarded ⟨true, true, true, false⟩ ⟨[⟨2, 9⟩], []⟩ minuteNs
      rfl rfl rfl rfl (by simp)).1,
   (commit_error_discarded ⟨true, true, true, false⟩ ⟨[⟨2, 9⟩], []⟩ minuteNs
      rfl rfl rfl rfl (by simp)).2.1⟩

/-- Claim C9: a cycle whose extracted batch is empty performs no insert into the
serving store, which is left unchanged (as is the whole store state), the
cycle returns nil, and the transaction is still taken to Commit (which
succeeds exactly when the environment lets it). -/
theorem empty_batch_no_serving_write (env : CycleEnv) (s : Stores)
    (he : s.transient = []) (hb : env.beginOk = true) (hr : env.readOk = true) :
    (transferNewNodes env s).res = TRes.ok ∧
    (transferNewNodes env s).stores.serving = s.serving ∧
    (transferNewNodes env s).stores = s ∧
    (∀ ns b, Ev.insertServing ns b ∉ (transferNewNodes env s).trace) ∧
    Ev.commitTx env.commitOk ∈ (transferNewNodes env s).trace := by
  obtain ⟨tr, sv⟩ := s
  have he' : tr = [] := he
  subst he'
  cases hc : env.commitOk <;>
    refine ⟨?_, ?_, ?_, ?_, ?_⟩ <;>
      simp [transferNewNodes, readAndDeleteUnseenNodes, hb, hr, hc]

/-- Witness for C9: an empty batch with every operation succeeding leaves
the serving store untouched. -/
theorem empty_batch_no_serving_write_witness :
    (transferNewNodes ⟨true, true, true, true⟩ ⟨[], [⟨4, 1⟩]⟩).res = TRes.ok ∧
    (transferNewNodes ⟨true, true, true, true⟩ ⟨[], [⟨4, 1⟩]⟩).stores.serving =
      [⟨4, 1⟩] :=
  ⟨(empty_batch_no_serving_write ⟨true, true, true, true⟩ ⟨[], [⟨4, 1⟩]⟩
      rfl rfl rfl).1,
   (empty_batch_no_serving_write ⟨true, true, true, true⟩ ⟨[], [⟨4, 1⟩]⟩
      rfl rfl rfl).2.1⟩

/-- Claim C10: the eviction ticker first fires only after one full ten-minute
period, so every bulk delete of a run happens at a time at least the cadence
period after startup (none at startup itself), and a run in which every
delete succeeds issues exactly one delete per tick, at consecutive tick
times, without panicking. -/
theorem drop_ticker_cadence (outcomes : List Bool) :
    tickTime 0 = dropInterval ∧
    (∀ t ∈ (dropDaemonRun 0 outcomes).1, dropInterval ≤ t) ∧
    ((∀ b ∈ outcomes, b = true) →
      dropDaemonRun 0 outcomes =
        ((List.range' 0 outcomes.length).map tickTime, false)) :=
  ⟨by simp [tickTime],
   fun t ht => dropDaemonRun_times_ge outcomes 0 t ht,
   fun h => dropDaemonRun_success outcomes 0 h⟩

/-- Witness for C10: a two-tick all-success run issues exactly two deletes
at the first two tick times, and the first tick is no earlier than the
cadence period. -/
theorem drop_ticker_cadence_witness :
    dropDaemonRun 0 [true, true] =
      ((List.range' 0 2).map tickTime, false) ∧
    dropInterval ≤ tickTime 0 :=
  ⟨(drop_ticker_cadence [true, true]).2.2 (by decide),
   (drop_ticker_cadence [true, true]).2.1 (tickTime 0) (by decide)⟩

end NodeCrawler
